import Mathlib

/-!
Verification of the handAbility backend (src/backend): the five gesture
classifiers and the repetition state machine.

The embedding works as follows.

* Python strings are Lean `String`s; the Python string methods
  `startswith`, `endswith` and `replace` used by `state_manager.py` are
  modelled by `strStartsWith`, `strEndsWith` and `strReplace` below.
* `time.time()` timestamps are rationals passed in explicitly: every
  state-machine operation takes the current time `now : ℚ` as an extra
  argument, standing for the value `time.time()` returns during that call.
* Python float arithmetic in the classifiers is modelled by exact real
  arithmetic (`ℝ`, with `Real.sqrt` for `math.sqrt`).
* A MediaPipe landmark dictionary is a `RawPt`: each coordinate is an
  `Option ℝ`, `none` meaning the key is absent.  A `KeyError`/`IndexError`
  raised by the Python code is an `Except.error ()`; code that catches
  those exceptions is modelled by matching on the `Except` value.
-/

namespace HandAbility

/-- Models Python `s.startswith(p)`. -/
def strStartsWith (s p : String) : Bool := p.data.isPrefixOf s.data

/-- Models Python `s.endswith(p)`. -/
def strEndsWith (s p : String) : Bool := p.data.isSuffixOf s.data

/-- Models Python `str.replace`: scan left to right, replacing every
non-overlapping occurrence of `pat` by `rep`.  The first argument is fuel
bounding the recursion depth; it is instantiated with the length of the
input, which suffices because `pat` is nonempty at every use site. -/
def replaceFuel (rep pat : List Char) : Nat → List Char → List Char
  | _, [] => []
  | 0, l => l
  | fuel + 1, c :: rest =>
    if pat.isPrefixOf (c :: rest) then
      rep ++ replaceFuel rep pat fuel (List.drop (pat.length - 1) rest)
    else
      c :: replaceFuel rep pat fuel rest

/-- Models Python `s.replace(pat, rep)` (for nonempty `pat`). -/
def strReplace (s pat rep : String) : String :=
  ⟨replaceFuel rep.data pat.data s.data.length s.data⟩

/-- The fixed enumeration of exercise types (the keys of
`StateManager.states` in `state_manager.py`). -/
inductive ExerciseType
  | open_close
  | pinch
  | abduction_adduction
  | thumb_opposition
  | finger_lifts
deriving DecidableEq

/-- One per-exercise record of `StateManager.states`.  The Python record is
a dict; `sequence_index` and `is_touching` are present only for
`thumb_opposition` (and are dropped again by `reset`), hence `Option`:
`none` models an absent key, and reads go through `.getD`, matching the
`dict.get(key, default)` calls in the source. -/
structure ExState where
  current_state : String
  previous_state : String
  repetitions : Nat
  last_state_change : ℚ
  sequence_index : Option Nat
  is_touching : Option Bool
deriving DecidableEq

/-- The five per-exercise records held by `StateManager.states`. -/
structure StateManager where
  open_close : ExState
  pinch : ExState
  abduction_adduction : ExState
  thumb_opposition : ExState
  finger_lifts : ExState
deriving DecidableEq

/-- `StateManager.__init__` (all timestamps are `time.time()` at
construction, modelled by the parameter `t0`). -/
def initManager (t0 : ℚ) : StateManager where
  open_close := ⟨"OPEN", "OPEN", 0, t0, none, none⟩
  pinch := ⟨"OPEN", "OPEN", 0, t0, none, none⟩
  abduction_adduction := ⟨"CLOSED", "CLOSED", 0, t0, none, none⟩
  thumb_opposition := ⟨"TRACKING", "TRACKING", 0, t0, some 0, some false⟩
  finger_lifts := ⟨"NONE", "NONE", 0, t0, none, none⟩

/-- `self.MIN_STATE_DURATION = 0.2`. -/
def MIN_STATE_DURATION : ℚ := 1 / 5

/-- Read the record of one exercise type out of the manager. -/
def getEx (m : StateManager) : ExerciseType → ExState
  | .open_close => m.open_close
  | .pinch => m.pinch
  | .abduction_adduction => m.abduction_adduction
  | .thumb_opposition => m.thumb_opposition
  | .finger_lifts => m.finger_lifts

/-- Store the record of one exercise type back into the manager. -/
def setEx (m : StateManager) : ExerciseType → ExState → StateManager
  | .open_close, s => { m with open_close := s }
  | .pinch, s => { m with pinch := s }
  | .abduction_adduction, s => { m with abduction_adduction := s }
  | .thumb_opposition, s => { m with thumb_opposition := s }
  | .finger_lifts, s => { m with finger_lifts := s }

/-- The tuple `('INDEX', 'MIDDLE', 'RING', 'PINKY')`. -/
def seqTuple : List String := ["INDEX", "MIDDLE", "RING", "PINKY"]

/-- `state_manager.py` lines 73-101: the `thumb_opposition` branch of
`update_state`, acting on that exercise's record.  Returns the updated
record, the `state_changed` flag and the repetition count.  (The Python
tuple indexing `('INDEX',...)[i]` is modelled with `List.getD`; reachable
states always have `sequence_index < 4`, see `reachable_thumb_invariant`.) -/
def stepThumb (s : ExState) (new_state : String) (now : ℚ) :
    ExState × Bool × Nat :=
  if strStartsWith new_state "TOUCH_" then
    let finger := strReplace new_state "TOUCH_" ""
    let idx := s.sequence_index.getD 0
    let expected := seqTuple.getD idx ""
    if finger = expected ∧ s.is_touching.getD false = false then
      let idx' := (idx + 1) % 4
      let reps' := if idx' = 0 then s.repetitions + 1 else s.repetitions
      ({ s with
          is_touching := some true
          sequence_index := some idx'
          repetitions := reps'
          previous_state := s.current_state
          current_state := new_state
          last_state_change := now }, true, reps')
    else
      (s, false, s.repetitions)
  else if new_state = "RELEASE" ∨ new_state = "TRANSITION" then
    if s.is_touching.getD false = true then
      ({ s with
          is_touching := some false
          previous_state := s.current_state
          current_state := new_state
          last_state_change := now }, true, s.repetitions)
    else
      (s, false, s.repetitions)
  else
    (s, false, s.repetitions)

/-- `state_manager.py` lines 104-122: the `finger_lifts` branch of
`update_state`.  The repetition count is incremented (against the old
`current_state`) before the label change is committed. -/
def stepFingerLifts (s : ExState) (new_state : String) (now : ℚ) :
    ExState × Bool × Nat :=
  let new1 := if new_state = "TRANSITIONING" then "TRANSITION" else new_state
  if new1 = "TRANSITION" then
    (s, false, s.repetitions)
  else
    let reps' :=
      if strEndsWith s.current_state "_UP" = true ∧ new1 = "NONE" then
        s.repetitions + 1
      else s.repetitions
    let s1 := { s with repetitions := reps' }
    if new1 ≠ s.current_state then
      ({ s1 with
          previous_state := s.current_state
          current_state := new1
          last_state_change := now }, true, reps')
    else
      (s1, false, reps')

/-- `state_manager.py` lines 124-157: the common debounce branch of
`update_state`, used for `open_close`, `pinch` and `abduction_adduction`. -/
def stepGeneral (ex : ExerciseType) (s : ExState) (new_state : String)
    (now : ℚ) : ExState × Bool × Nat :=
  let time_since_change := now - s.last_state_change
  let new1 := if new_state = "TRANSITIONING" then "TRANSITION" else new_state
  if new1 = "TRANSITION" then
    (s, false, s.repetitions)
  else if new1 ≠ s.current_state ∧ MIN_STATE_DURATION ≤ time_since_change then
    let reps' :=
      match ex with
      | .open_close | .pinch =>
        if s.current_state = "CLOSED" ∧ new1 = "OPEN" then
          s.repetitions + 1
        else s.repetitions
      | .abduction_adduction =>
        if s.current_state = "CLOSED" ∧ new1 = "SPREAD" then
          s.repetitions + 1
        else s.repetitions
      | _ => s.repetitions
    ({ s with
        repetitions := reps'
        previous_state := s.current_state
        current_state := new1
        last_state_change := now }, true, reps')
  else
    (s, false, s.repetitions)

/-- `update_state` restricted to one exercise record, dispatching on the
exercise type exactly as the source does. -/
def stepEx (ex : ExerciseType) (s : ExState) (new_state : String) (now : ℚ) :
    ExState × Bool × Nat :=
  match ex with
  | .thumb_opposition => stepThumb s new_state now
  | .finger_lifts => stepFingerLifts s new_state now
  | _ => stepGeneral ex s new_state now

/-- `StateManager.update_state(exercise_type, new_state)`: the record of
the requested exercise is read, stepped and written back, and the
`(state_changed, repetitions)` result of the Python method is returned
alongside the updated manager.  (The `ValueError` for an unknown exercise
string cannot arise here because `ex` ranges over the fixed enumeration.) -/
def updateState (m : StateManager) (ex : ExerciseType) (new_state : String)
    (now : ℚ) : StateManager × Bool × Nat :=
  let r := stepEx ex (getEx m ex) new_state now
  (setEx m ex r.1, r.2.1, r.2.2)

/-- `StateManager.reset(exercise_type)`: the record is replaced by a fresh
dict that has no `sequence_index`/`is_touching` keys and whose
`current_state` is `OPEN` for every exercise type. -/
def resetManager (m : StateManager) (ex : ExerciseType) (now : ℚ) :
    StateManager :=
  setEx m ex ⟨"OPEN", "OPEN", 0, now, none, none⟩

/-- Run a whole sequence of `update_state` calls. -/
def foldUpdates (m : StateManager) :
    List (ExerciseType × String × ℚ) → StateManager
  | [] => m
  | c :: cs => foldUpdates (updateState m c.1 c.2.1 c.2.2).1 cs

/-- The managers reachable by the server: a fresh `StateManager` followed by
any sequence of `update_state` and `reset` calls. -/
inductive Reachable : StateManager → Prop
  | init (t0 : ℚ) : Reachable (initManager t0)
  | update (m : StateManager) (ex : ExerciseType) (l : String) (now : ℚ) :
      Reachable m → Reachable (updateState m ex l now).1
  | reset (m : StateManager) (ex : ExerciseType) (now : ℚ) :
      Reachable m → Reachable (resetManager m ex now)

/-- The label TRANSITION or its variant TRANSITIONING. -/
def isTransitionLabel (l : String) : Prop :=
  l = "TRANSITION" ∨ l = "TRANSITIONING"

instance (l : String) : Decidable (isTransitionLabel l) := by
  unfold isTransitionLabel; infer_instance

/-- The counted closing edge of each debounced exercise:
CLOSED to OPEN for open_close/pinch, CLOSED to SPREAD for
abduction_adduction. -/
def repEdge (ex : ExerciseType) (cur new : String) : Prop :=
  match ex with
  | .open_close | .pinch => cur = "CLOSED" ∧ new = "OPEN"
  | .abduction_adduction => cur = "CLOSED" ∧ new = "SPREAD"
  | _ => False

instance (ex : ExerciseType) (cur new : String) :
    Decidable (repEdge ex cur new) := by
  unfold repEdge; cases ex <;> infer_instance


/-- Invariant of the thumb-opposition record: the sequence cursor stays
below 4 and the touching flag is set exactly while the committed label is a
TOUCH_ label. -/
def ThumbInv (s : ExState) : Prop :=
  s.sequence_index.getD 0 < 4 ∧
    s.is_touching.getD false = strStartsWith s.current_state "TOUCH_"

/-! ## The gesture classifiers

Coordinates are exact reals; `math.sqrt` is `Real.sqrt`.  A landmark dict
is a `RawPt` whose fields may be absent; a Python `KeyError`/`IndexError`
is `Except.error ()`.
-/

/-- One MediaPipe landmark dictionary; a missing coordinate key is `none`. -/
structure RawPt where
  x : Option ℝ
  y : Option ℝ
  z : Option ℝ

/-- A fully-populated landmark with `z = 0`. -/
def P2 (x y : ℝ) : RawPt := ⟨some x, some y, some 0⟩

/-- Model of `p['k']` on an optional field: a missing key raises KeyError. -/
def getF : Option ℝ → Except Unit ℝ
  | some v => .ok v
  | none => .error ()

/-- Model of `landmarks[i]`: an out-of-range index raises IndexError. -/
def getLm (f : List RawPt) (i : Nat) : Except Unit RawPt :=
  match f.get? i with
  | some p => .ok p
  | none => .error ()

/-- The 2D `_dist` shared verbatim by abduction_adduction.py,
finger_lifts.py and thumb_opposition.py:
`math.sqrt((a['x']-b['x'])**2 + (a['y']-b['y'])**2)`. -/
noncomputable def dist2E (a b : RawPt) : Except Unit ℝ := do
  let ax ← getF a.x
  let bx ← getF b.x
  let ay ← getF a.y
  let by' ← getF b.y
  pure (Real.sqrt ((ax - bx) ^ 2 + (ay - by') ^ 2))

/-- The 3D `calculate_distance` of open_close.py and pinch.py. -/
noncomputable def dist3E (a b : RawPt) : Except Unit ℝ := do
  let ax ← getF a.x
  let bx ← getF b.x
  let ay ← getF a.y
  let by' ← getF b.y
  let az ← getF a.z
  let bz ← getF b.z
  let dx := ax - bx
  let dy := ay - by'
  let dz := az - bz
  pure (Real.sqrt (dx * dx + dy * dy + dz * dz))

/-- `_palm_size` (identical in abduction_adduction.py, finger_lifts.py and
thumb_opposition.py): wrist (0) to middle MCP (9) distance; `1.0` for a
frame with fewer than 10 points; floored at `1e-6`. -/
noncomputable def palmSizeE (f : List RawPt) : Except Unit ℝ :=
  if f.length < 10 then .ok 1
  else do
    let a ← getLm f 0
    let b ← getLm f 9
    let d ← dist2E a b
    pure (max d (1 / 1000000))

/-- The loop over `self.FINGERTIPS = [8, 12, 16, 20]` in
`HandOpenCloseDetector.detect_state`: fingertip-to-wrist distances. -/
noncomputable def ocDistances (f : List RawPt) (wrist : RawPt) :
    List Nat → Except Unit (List ℝ)
  | [] => .ok []
  | i :: rest => do
    let tip ← getLm f i
    let d ← dist3E wrist tip
    let ds ← ocDistances f wrist rest
    pure (d :: ds)

/-- The final threshold comparison of `HandOpenCloseDetector.detect_state`
(`OPEN_THRESHOLD = 0.25`, `CLOSED_THRESHOLD = 0.15`). -/
noncomputable def ocClassify (avg : ℝ) : String :=
  if avg > 25 / 100 then "OPEN"
  else if avg < 15 / 100 then "CLOSED"
  else "TRANSITION"

/-- The body of the `try:` block of `HandOpenCloseDetector.detect_state`. -/
noncomputable def ocTryBody (f : List RawPt) : Except Unit String := do
  let wrist ← getLm f 0
  let ds ← ocDistances f wrist [8, 12, 16, 20]
  pure (ocClassify (ds.sum / (ds.length : ℝ)))

/-- `HandOpenCloseDetector.detect_state`: a short frame yields TRANSITION,
and the `except (KeyError, IndexError, TypeError)` clause turns any error
from the body into TRANSITION as well. -/
noncomputable def ocDetectState (f : List RawPt) : String :=
  if f.length < 21 then "TRANSITION"
  else
    match ocTryBody f with
    | .ok s => s
    | .error _ => "TRANSITION"

/-- The threshold comparison of `PinchDetector.detect_state`
(`OPEN_THRESHOLD = 0.08`, `CLOSED_THRESHOLD = 0.04`). -/
noncomputable def pinchClassify (d : ℝ) : String :=
  if d > 8 / 100 then "OPEN"
  else if d < 4 / 100 then "CLOSED"
  else "TRANSITION"

/-- The body of the `try:` block of `PinchDetector.detect_state`:
3D thumb-tip (4) to index-tip (8) distance. -/
noncomputable def pinchTryBody (f : List RawPt) : Except Unit String := do
  let thumb ← getLm f 4
  let index ← getLm f 8
  let d ← dist3E thumb index
  pure (pinchClassify d)

/-- `PinchDetector.detect_state`, with the same catch-all as open_close. -/
noncomputable def pinchDetectState (f : List RawPt) : String :=
  if f.length < 21 then "TRANSITION"
  else
    match pinchTryBody f with
    | .ok s => s
    | .error _ => "TRANSITION"

/-- `AbductionAdductionDetector.calculate_finger_spread`: palm-normalized
adjacent fingertip gaps (8-12, 12-16, 16-20), averaged; `0.0` for a short
frame. -/
noncomputable def aaFingerSpread (f : List RawPt) : Except Unit ℝ :=
  if f.length < 21 then .ok 0
  else do
    let palm ← palmSizeE f
    let l8 ← getLm f 8
    let l12 ← getLm f 12
    let g1 ← dist2E l8 l12
    let l16 ← getLm f 16
    let g2 ← dist2E l12 l16
    let l20 ← getLm f 20
    let g3 ← dist2E l16 l20
    pure ((g1 / palm + g2 / palm + g3 / palm) / 3)

/-- `AbductionAdductionDetector.detect_state`
(`spread_threshold = 0.34`, `closed_threshold = 0.20`).  There is no
`try/except` here: a KeyError from a malformed point propagates out. -/
noncomputable def aaDetectState (f : List RawPt) : Except Unit String :=
  if f.length < 21 then .ok "UNKNOWN"
  else do
    let gap ← aaFingerSpread f
    pure
      (if gap ≥ 34 / 100 then "SPREAD"
      else if gap ≤ 20 / 100 then "CLOSED"
      else "TRANSITIONING")

/-- `self.fingers` of `FingerLiftsDetector`, in dict insertion order:
(name, tip index, pip index). -/
def flFingers : List (String × Nat × Nat) :=
  [("INDEX", 8, 6), ("MIDDLE", 12, 10), ("RING", 16, 14), ("PINKY", 20, 18)]

/-- The per-finger loop of `FingerLiftsDetector.detect_state`, carrying the
`(best_finger, best_score)` accumulator (initially `(None, 0.0)`). -/
noncomputable def flLoop (f : List RawPt) (palm : ℝ) :
    List (String × Nat × Nat) → Option String × ℝ →
      Except Unit (Option String × ℝ)
  | [], acc => .ok acc
  | (name, tipIdx, pipIdx) :: rest, acc => do
    let tip ← getLm f tipIdx
    let pip ← getLm f pipIdx
    let py ← getF pip.y
    let ty ← getF tip.y
    let score := (py - ty) / palm
    flLoop f palm rest (if score > acc.2 then (some name, score) else acc)

/-- `FingerLiftsDetector.detect_state` (`up_threshold = 0.055`,
`down_threshold = 0.035`).  `if best_finger` tests Python truthiness: the
accumulator holds either `None` or one of the four nonempty names, so it is
`Option.isSome` here.  No `try/except`: errors propagate. -/
noncomputable def flDetectState (f : List RawPt) : Except Unit String :=
  if f.length < 21 then .ok "UNKNOWN"
  else do
    let palm ← palmSizeE f
    let best ← flLoop f palm flFingers (none, 0)
    pure
      (if best.1.isSome = true ∧ best.2 ≥ 55 / 1000 then
        (best.1.getD "") ++ "_UP"
      else if best.2 ≤ 35 / 1000 then "NONE"
      else "TRANSITION")

/-- `ThumbOppositionDetector.detect_state`: no point access at all. -/
def toDetectState (f : List RawPt) : String :=
  if f.length < 21 then "UNKNOWN" else "TRACKING"

/-- `self.finger_tips` of `ThumbOppositionDetector`; an unknown target
raises KeyError. -/
def toFingerTips : String → Except Unit Nat
  | "INDEX" => .ok 8
  | "MIDDLE" => .ok 12
  | "RING" => .ok 16
  | "PINKY" => .ok 20
  | _ => .error ()

/-- `touch_threshold = 0.22`. -/
noncomputable def touch_threshold : ℝ := 22 / 100

/-- `release_threshold = 0.28`. -/
noncomputable def release_threshold : ℝ := 28 / 100

/-- The distance computation shared by `detect_touch_target` and
`detect_released`: palm-normalized 2D thumb-tip (4) to target-tip
distance. -/
noncomputable def toNormDist (f : List RawPt) (target : String) :
    Except Unit ℝ := do
  let palm ← palmSizeE f
  let thumb ← getLm f 4
  let ti ← toFingerTips target
  let tip ← getLm f ti
  let d ← dist2E thumb tip
  pure (d / palm)

/-- `ThumbOppositionDetector.detect_touch_target`: `d <= 0.22`. -/
noncomputable def detect_touch_target (f : List RawPt) (target : String) :
    Except Unit Bool :=
  (toNormDist f target).map (fun d => decide (d ≤ touch_threshold))

/-- `ThumbOppositionDetector.detect_released`: `d >= 0.28`. -/
noncomputable def detect_released (f : List RawPt) (target : String) :
    Except Unit Bool :=
  (toNormDist f target).map (fun d => decide (release_threshold ≤ d))

/-- One probe of the `for finger in seq:` loop in app.py `analyze`
(thumb branch): an exception from `detect_touch_target` is caught and the
loop continues, so it acts like a non-touch. -/
noncomputable def probeTouch (f : List RawPt) (target : String) : Bool :=
  match detect_touch_target f target with
  | .ok b => b
  | .error _ => false

/-- app.py lines 329-350: the composed thumb_opposition label for one
frame.  `seq` is probed in order for the first touching finger; the label
is TOUCH_<finger> if it is the expected one, RELEASE if none touches and
TRANSITION otherwise.  `detect_released` is never consulted. -/
noncomputable def composeThumbLabel (f : List RawPt) (cursor : Nat) : String :=
  let expected := seqTuple.getD cursor ""
  match seqTuple.find? (fun fg => probeTouch f fg) with
  | some t => if t = expected then "TOUCH_" ++ t else "TRANSITION"
  | none => "RELEASE"

/-! ## Concrete frames used by counterexamples and witnesses -/

/-- A 21-point frame whose palm size is 1 and whose thumb tip sits at
distance 1/4 from the index tip and distance 1 from the other tips. -/
noncomputable def F7 : List RawPt :=
  [P2 0 0, P2 0 0, P2 0 0, P2 0 0, P2 0 0,
   P2 0 0, P2 0 0, P2 0 0, P2 (1 / 4) 0, P2 1 0,
   P2 0 0, P2 0 0, P2 1 0, P2 0 0, P2 0 0,
   P2 0 0, P2 1 0, P2 0 0, P2 0 0, P2 0 0,
   P2 1 0]

/-- A 21-point frame whose index-tip landmark (8) is missing both
coordinate keys. -/
noncomputable def F6 : List RawPt :=
  [P2 0 0, P2 0 0, P2 0 0, P2 0 0, P2 0 0,
   P2 0 0, P2 0 0, P2 0 0, ⟨none, none, some 0⟩, P2 1 0,
   P2 0 0, P2 0 0, P2 0 0, P2 0 0, P2 0 0,
   P2 0 0, P2 0 0, P2 0 0, P2 0 0, P2 0 0,
   P2 0 0]

/-- Ten coincident landmarks. -/
noncomputable def F10 : List RawPt := List.replicate 10 (P2 0 0)

/-! ## Basic lemmas about the manager and the step functions -/

theorem getEx_setEx (m : StateManager) (ex : ExerciseType) (s : ExState) :
    getEx (setEx m ex s) ex = s := by
  cases ex <;> rfl

theorem setEx_getEx (m : StateManager) (ex : ExerciseType) :
    setEx m ex (getEx m ex) = m := by
  cases ex <;> rfl

theorem getEx_setEx_ne (m : StateManager) (ex ex' : ExerciseType) (s : ExState)
    (h : ex ≠ ex') : getEx (setEx m ex s) ex' = getEx m ex' := by
  cases ex <;> cases ex' <;> first | rfl | exact absurd rfl h

/-- If a step reports no state change, it leaves the record untouched and
returns the old count. -/
theorem stepEx_reject (ex : ExerciseType) (s : ExState) (l : String) (now : ℚ)
    (h : (stepEx ex s l now).2.1 = false) :
    (stepEx ex s l now).1 = s ∧ (stepEx ex s l now).2.2 = s.repetitions := by
  cases ex <;>
    simp only [stepEx, stepThumb, stepFingerLifts, stepGeneral] at h ⊢ <;>
    split_ifs at h ⊢ <;> simp_all
  all_goals
    rename_i hne hcnt
    rw [← hne] at hcnt
    exact absurd hcnt.1 (by decide)

/-- A single step never decreases the repetition count of the record. -/
theorem stepEx_mono (ex : ExerciseType) (s : ExState) (l : String) (now : ℚ) :
    s.repetitions ≤ (stepEx ex s l now).1.repetitions := by
  cases ex <;>
    simp only [stepEx, stepThumb, stepFingerLifts, stepGeneral] <;>
    split_ifs <;> simp_all

/-- A single `update_state` call never decreases any exercise's count. -/
theorem updateState_mono (m : StateManager) (ex : ExerciseType) (l : String)
    (now : ℚ) (ex' : ExerciseType) :
    (getEx m ex').repetitions ≤
      (getEx (updateState m ex l now).1 ex').repetitions := by
  by_cases hx : ex = ex'
  · subst hx
    rw [updateState, getEx_setEx]
    exact stepEx_mono ex (getEx m ex) l now
  · rw [updateState, getEx_setEx_ne m ex ex' _ hx]

theorem stepThumb_inv (s : ExState) (l : String) (now : ℚ)
    (h : ThumbInv s) : ThumbInv (stepThumb s l now).1 := by
  obtain ⟨h4, ht⟩ := h
  simp only [stepThumb]
  split_ifs with h1 h2 hw h3 h4'
  · exact ⟨Nat.mod_lt _ (by norm_num), h1.symm⟩
  · exact ⟨Nat.mod_lt _ (by norm_num), h1.symm⟩
  · exact ⟨h4, ht⟩
  · refine ⟨h4, ?_⟩
    show false = strStartsWith l "TOUCH_"
    rcases h3 with h3 | h3 <;> rw [h3] <;> decide
  · exact ⟨h4, ht⟩
  · exact ⟨h4, ht⟩

/-- Stepping the thumb record with the label it already holds never
changes anything (given the invariant). -/
theorem stepThumb_same (s : ExState) (now : ℚ) (h : ThumbInv s) :
    stepThumb s s.current_state now = (s, false, s.repetitions) := by
  obtain ⟨h4, ht⟩ := h
  simp only [stepThumb]
  split_ifs with h1 h2 hw h3 h4'
  · rw [h1] at ht
    exact absurd h2.2 (by simp [ht])
  · rw [h1] at ht
    exact absurd h2.2 (by simp [ht])
  · rfl
  · rw [ht] at h4'
    exact absurd h4' h1
  · rfl
  · rfl

theorem stepFingerLifts_same (s : ExState) (now : ℚ) :
    stepFingerLifts s s.current_state now = (s, false, s.repetitions) := by
  simp only [stepFingerLifts]
  by_cases hT : s.current_state = "TRANSITIONING"
  · rw [if_pos hT, if_pos rfl]
  · rw [if_neg hT]
    by_cases hTr : s.current_state = "TRANSITION"
    · rw [if_pos hTr]
    · rw [if_neg hTr]
      have hc : ¬(strEndsWith s.current_state "_UP" = true ∧
          s.current_state = "NONE") := by
        rintro ⟨hup, hnone⟩
        rw [hnone] at hup
        exact absurd hup (by decide)
      rw [if_neg hc, if_neg (by simp)]

theorem stepGeneral_same (ex : ExerciseType) (s : ExState) (now : ℚ) :
    stepGeneral ex s s.current_state now = (s, false, s.repetitions) := by
  simp only [stepGeneral]
  by_cases hT : s.current_state = "TRANSITIONING"
  · rw [if_pos hT, if_pos rfl]
  · rw [if_neg hT]
    by_cases hTr : s.current_state = "TRANSITION"
    · rw [if_pos hTr]
    · rw [if_neg hTr]
      rw [if_neg (by rintro ⟨hne, hd⟩; exact hne rfl)]

/-- Resubmitting the current label is always rejected without effect. -/
theorem stepEx_same (ex : ExerciseType) (s : ExState) (now : ℚ)
    (hinv : ex = .thumb_opposition → ThumbInv s) :
    stepEx ex s s.current_state now = (s, false, s.repetitions) := by
  cases ex
  case thumb_opposition => exact stepThumb_same s now (hinv rfl)
  case finger_lifts => exact stepFingerLifts_same s now
  case open_close => exact stepGeneral_same .open_close s now
  case pinch => exact stepGeneral_same .pinch s now
  case abduction_adduction => exact stepGeneral_same .abduction_adduction s now

/-- Every reachable manager satisfies the thumb invariant. -/
theorem reachable_thumbInv (m : StateManager) (h : Reachable m) :
    ThumbInv (getEx m .thumb_opposition) := by
  induction h with
  | init t0 =>
    refine ⟨?_, ?_⟩
    · show (0 : Nat) < 4
      decide
    · show false = strStartsWith "TRACKING" "TOUCH_"
      decide
  | reset m ex now _ ih =>
    by_cases hx : ex = .thumb_opposition
    · subst hx
      rw [resetManager, getEx_setEx]
      refine ⟨?_, ?_⟩
      · show (0 : Nat) < 4
        decide
      · show false = strStartsWith "OPEN" "TOUCH_"
        decide
    · rw [resetManager, getEx_setEx_ne _ _ _ _ hx]
      exact ih
  | update m ex l now _ ih =>
    by_cases hx : ex = .thumb_opposition
    · subst hx
      rw [updateState, getEx_setEx]
      exact stepThumb_inv _ l now ih
    · rw [updateState, getEx_setEx_ne _ _ _ _ hx]
      exact ih


/-! ## Branch characterisations of the step functions -/

/-- Debounced branch: a TRANSITION/TRANSITIONING label is ignored. -/
theorem stepGeneral_transition (ex : ExerciseType) (s : ExState) (l : String)
    (now : ℚ) (hl : isTransitionLabel l) :
    stepGeneral ex s l now = (s, false, s.repetitions) := by
  rcases hl with h | h <;> subst h <;> simp +decide [stepGeneral]

/-- Debounced branch: a differing label inside the hold window is dropped. -/
theorem stepGeneral_drop (ex : ExerciseType) (s : ExState) (l : String)
    (now : ℚ) (h1 : ¬ isTransitionLabel l) (h2 : l ≠ s.current_state)
    (h3 : now - s.last_state_change < MIN_STATE_DURATION) :
    stepGeneral ex s l now = (s, false, s.repetitions) := by
  rw [isTransitionLabel, not_or] at h1
  simp only [stepGeneral]
  rw [if_neg h1.2, if_neg h1.1, if_neg]
  rintro ⟨hne, hd⟩
  exact absurd h3 (not_lt.mpr hd)

/-- Debounced branch: a differing label after the hold window is accepted,
counting a repetition exactly on the closing edge of the cycle. -/
theorem stepGeneral_accept (ex : ExerciseType) (s : ExState) (l : String)
    (now : ℚ) (h1 : ¬ isTransitionLabel l) (h2 : l ≠ s.current_state)
    (h3 : MIN_STATE_DURATION ≤ now - s.last_state_change) :
    stepGeneral ex s l now =
      ({ s with
          repetitions := s.repetitions +
            (if repEdge ex s.current_state l then 1 else 0)
          previous_state := s.current_state
          current_state := l
          last_state_change := now }, true,
        s.repetitions + (if repEdge ex s.current_state l then 1 else 0)) := by
  rw [isTransitionLabel, not_or] at h1
  simp only [stepGeneral]
  rw [if_neg h1.2, if_neg h1.1, if_pos ⟨h2, h3⟩]
  cases ex <;> simp only [repEdge] <;> split_ifs <;> simp_all

/-- finger_lifts branch: a TRANSITION/TRANSITIONING label is ignored. -/
theorem stepFingerLifts_transition (s : ExState) (l : String) (now : ℚ)
    (hl : isTransitionLabel l) :
    stepFingerLifts s l now = (s, false, s.repetitions) := by
  rcases hl with h | h <;> subst h <;> simp +decide [stepFingerLifts]

/-- finger_lifts branch: any other differing label is committed at once,
counting a repetition exactly on an `_UP`-to-NONE edge (checked against the
old label, before the commit). -/
theorem stepFingerLifts_change (s : ExState) (l : String) (now : ℚ)
    (h1 : ¬ isTransitionLabel l) (h2 : l ≠ s.current_state) :
    stepFingerLifts s l now =
      ({ s with
          repetitions := s.repetitions +
            (if strEndsWith s.current_state "_UP" = true ∧ l = "NONE"
              then 1 else 0)
          previous_state := s.current_state
          current_state := l
          last_state_change := now }, true,
        s.repetitions +
          (if strEndsWith s.current_state "_UP" = true ∧ l = "NONE"
            then 1 else 0)) := by
  rw [isTransitionLabel, not_or] at h1
  simp only [stepFingerLifts]
  rw [if_neg h1.2, if_neg h1.1, if_pos h2]
  split_ifs <;> rfl

/-- thumb branch: an expected, un-nested touch is accepted; the cursor
advances modulo 4 and the count increments exactly on wrap-around. -/
theorem stepThumb_touch_accept (s : ExState) (l : String) (now : ℚ)
    (h1 : strStartsWith l "TOUCH_" = true)
    (hf : strReplace l "TOUCH_" "" = seqTuple.getD (s.sequence_index.getD 0) "")
    (ht : s.is_touching.getD false = false) :
    stepThumb s l now =
      ({ s with
          is_touching := some true
          sequence_index := some ((s.sequence_index.getD 0 + 1) % 4)
          repetitions :=
            if (s.sequence_index.getD 0 + 1) % 4 = 0 then s.repetitions + 1
            else s.repetitions
          previous_state := s.current_state
          current_state := l
          last_state_change := now }, true,
        if (s.sequence_index.getD 0 + 1) % 4 = 0 then s.repetitions + 1
        else s.repetitions) := by
  simp only [stepThumb]
  rw [if_pos h1, if_pos ⟨hf, ht⟩]

/-- thumb branch: a touch of the wrong finger, or while already touching,
is rejected without effect. -/
theorem stepThumb_touch_reject (s : ExState) (l : String) (now : ℚ)
    (h1 : strStartsWith l "TOUCH_" = true)
    (h2 : ¬ (strReplace l "TOUCH_" "" = seqTuple.getD (s.sequence_index.getD 0) ""
          ∧ s.is_touching.getD false = false)) :
    stepThumb s l now = (s, false, s.repetitions) := by
  simp only [stepThumb]
  rw [if_pos h1, if_neg h2]

/-- thumb branch: RELEASE/TRANSITION is accepted exactly while touching. -/
theorem stepThumb_release (s : ExState) (l : String) (now : ℚ)
    (h1 : strStartsWith l "TOUCH_" = false)
    (h2 : l = "RELEASE" ∨ l = "TRANSITION") :
    stepThumb s l now =
      if s.is_touching.getD false = true then
        ({ s with
            is_touching := some false
            previous_state := s.current_state
            current_state := l
            last_state_change := now }, true, s.repetitions)
      else (s, false, s.repetitions) := by
  simp only [stepThumb]
  rw [if_neg (by simp [h1]), if_pos h2]

/-- thumb branch: every label that is neither a TOUCH_ label nor
RELEASE/TRANSITION is rejected without effect. -/
theorem stepThumb_other (s : ExState) (l : String) (now : ℚ)
    (h1 : strStartsWith l "TOUCH_" = false)
    (h2 : ¬ (l = "RELEASE" ∨ l = "TRANSITION")) :
    stepThumb s l now = (s, false, s.repetitions) := by
  simp only [stepThumb]
  rw [if_neg (by simp [h1]), if_neg h2]


/-! ## Reduction lemmas for the Except monad -/

@[simp] theorem ok_bind {α β : Type} (a : α) (g : α → Except Unit β) :
    (Except.ok a >>= g) = g a := rfl

@[simp] theorem error_bind {α β : Type} (e : Unit) (g : α → Except Unit β) :
    (Except.error e >>= g) = Except.error e := rfl

/-! ## Evaluation of the concrete frames -/

theorem palmSize_F10 : palmSizeE F10 = Except.ok (1 / 1000000) := by
  have h : palmSizeE F10 =
      Except.ok (max (Real.sqrt (((0 : ℝ) - 0) ^ 2 + ((0 : ℝ) - 0) ^ 2))
        (1 / 1000000)) := rfl
  rw [h]
  norm_num

theorem toNormDist_F7_index : toNormDist F7 "INDEX" = Except.ok (1 / 4) := by
  have h : toNormDist F7 "INDEX" =
      Except.ok (Real.sqrt (((0 : ℝ) - 1 / 4) ^ 2 + ((0 : ℝ) - 0) ^ 2) /
        max (Real.sqrt (((0 : ℝ) - 1) ^ 2 + ((0 : ℝ) - 0) ^ 2))
          (1 / 1000000)) := rfl
  rw [h]
  have h1 : Real.sqrt (((0 : ℝ) - 1 / 4) ^ 2 + ((0 : ℝ) - 0) ^ 2) = 1 / 4 := by
    rw [show ((0 : ℝ) - 1 / 4) ^ 2 + ((0 : ℝ) - 0) ^ 2 = (1 / 4) ^ 2 by
      norm_num]
    exact Real.sqrt_sq (by norm_num)
  have h2 : Real.sqrt (((0 : ℝ) - 1) ^ 2 + ((0 : ℝ) - 0) ^ 2) = 1 := by
    rw [show ((0 : ℝ) - 1) ^ 2 + ((0 : ℝ) - 0) ^ 2 = 1 ^ 2 by norm_num]
    exact Real.sqrt_sq (by norm_num)
  rw [h1, h2]
  norm_num

theorem toNormDist_F7_far (fg : String)
    (hfg : fg = "MIDDLE" ∨ fg = "RING" ∨ fg = "PINKY") :
    toNormDist F7 fg = Except.ok 1 := by
  have h2 : Real.sqrt (((0 : ℝ) - 1) ^ 2 + ((0 : ℝ) - 0) ^ 2) = 1 := by
    rw [show ((0 : ℝ) - 1) ^ 2 + ((0 : ℝ) - 0) ^ 2 = 1 ^ 2 by norm_num]
    exact Real.sqrt_sq (by norm_num)
  have h : toNormDist F7 fg =
      Except.ok (Real.sqrt (((0 : ℝ) - 1) ^ 2 + ((0 : ℝ) - 0) ^ 2) /
        max (Real.sqrt (((0 : ℝ) - 1) ^ 2 + ((0 : ℝ) - 0) ^ 2))
          (1 / 1000000)) := by
    rcases hfg with h | h | h <;> subst h <;> rfl
  rw [h, h2]
  norm_num

theorem probeTouch_eq_false (f : List RawPt) (fg : String) (d : ℝ)
    (h : toNormDist f fg = Except.ok d) (hd : ¬ d ≤ touch_threshold) :
    probeTouch f fg = false := by
  rw [probeTouch, detect_touch_target, h]
  show decide (d ≤ touch_threshold) = false
  exact decide_eq_false hd

theorem probeTouch_F7 (fg : String) (hfg : fg ∈ seqTuple) :
    probeTouch F7 fg = false := by
  fin_cases hfg
  · exact probeTouch_eq_false F7 "INDEX" (1 / 4) toNormDist_F7_index
      (by rw [touch_threshold]; norm_num)
  · exact probeTouch_eq_false F7 "MIDDLE" 1 (toNormDist_F7_far _ (Or.inl rfl))
      (by rw [touch_threshold]; norm_num)
  · exact probeTouch_eq_false F7 "RING" 1
      (toNormDist_F7_far _ (Or.inr (Or.inl rfl)))
      (by rw [touch_threshold]; norm_num)
  · exact probeTouch_eq_false F7 "PINKY" 1
      (toNormDist_F7_far _ (Or.inr (Or.inr rfl)))
      (by rw [touch_threshold]; norm_num)

theorem composeThumb_F7 : composeThumbLabel F7 0 = "RELEASE" := by
  rw [composeThumbLabel]
  have hfind : seqTuple.find? (fun fg => probeTouch F7 fg) = none := by
    rw [List.find?_eq_none]
    intro x hx
    simp [probeTouch_F7 x hx]
  rw [hfind]

theorem touch_ne_release (t : String) : ("TOUCH_" ++ t) ≠ "RELEASE" := by
  intro h
  have hd := congrArg String.data h
  rw [String.data_append] at hd
  simp at hd

/-! ## Closed label sets of the caught classifiers -/

theorem ocTryBody_classify (f : List RawPt) (s : String)
    (h : ocTryBody f = .ok s) : ∃ a, s = ocClassify a := by
  rw [ocTryBody] at h
  cases h0 : getLm f 0 with
  | error e => rw [h0] at h; simp at h
  | ok w =>
    rw [h0, ok_bind] at h
    cases hds : ocDistances f w [8, 12, 16, 20] with
    | error e => rw [hds] at h; simp at h
    | ok ds =>
      rw [hds] at h
      have hv : Except.ok (ocClassify (ds.sum / (ds.length : ℝ))) =
          Except.ok s := h
      exact ⟨_, (Except.ok.inj hv).symm⟩

theorem pinchTryBody_classify (f : List RawPt) (s : String)
    (h : pinchTryBody f = .ok s) : ∃ a, s = pinchClassify a := by
  rw [pinchTryBody] at h
  cases h0 : getLm f 4 with
  | error e => rw [h0] at h; simp at h
  | ok t =>
    rw [h0, ok_bind] at h
    cases h8 : getLm f 8 with
    | error e => rw [h8] at h; simp at h
    | ok i =>
      rw [h8, ok_bind] at h
      cases hd : dist3E t i with
      | error e => rw [hd] at h; simp at h
      | ok d =>
        rw [hd] at h
        have hv : Except.ok (pinchClassify d) = Except.ok s := h
        exact ⟨_, (Except.ok.inj hv).symm⟩

theorem ocClassify_mem (a : ℝ) :
    ocClassify a = "OPEN" ∨ ocClassify a = "CLOSED" ∨
      ocClassify a = "TRANSITION" := by
  rw [ocClassify]
  split_ifs <;> simp

theorem pinchClassify_mem (a : ℝ) :
    pinchClassify a = "OPEN" ∨ pinchClassify a = "CLOSED" ∨
      pinchClassify a = "TRANSITION" := by
  rw [pinchClassify]
  split_ifs <;> simp


/-! ## The claims -/

/-- C1: for open_close, pinch and abduction_adduction, `update_state`
ignores a TRANSITION or TRANSITIONING label (changed = false, no state or
count change); a non-transition label different from the current one is
accepted iff at least MIN_STATE_DURATION (200 ms) has elapsed since the
last accepted change, and is otherwise dropped without any change; on
acceptance the repetition count increments iff the transition is
CLOSED-to-OPEN (open_close, pinch) or CLOSED-to-SPREAD
(abduction_adduction), every other accepted transition updating the labels
and the timestamp without touching the count. -/
theorem C1_debounced_update (ex : ExerciseType)
    (hex : ex = .open_close ∨ ex = .pinch ∨ ex = .abduction_adduction)
    (m : StateManager) (l : String) (now : ℚ) :
    (isTransitionLabel l →
      updateState m ex l now = (m, false, (getEx m ex).repetitions)) ∧
    (¬ isTransitionLabel l → l ≠ (getEx m ex).current_state →
      now - (getEx m ex).last_state_change < MIN_STATE_DURATION →
      updateState m ex l now = (m, false, (getEx m ex).repetitions)) ∧
    (¬ isTransitionLabel l → l ≠ (getEx m ex).current_state →
      MIN_STATE_DURATION ≤ now - (getEx m ex).last_state_change →
      updateState m ex l now =
        (setEx m ex
          { getEx m ex with
              repetitions := (getEx m ex).repetitions +
                (if repEdge ex (getEx m ex).current_state l then 1 else 0)
              previous_state := (getEx m ex).current_state
              current_state := l
              last_state_change := now }, true,
          (getEx m ex).repetitions +
            (if repEdge ex (getEx m ex).current_state l then 1 else 0))) := by
  have hg : stepEx ex (getEx m ex) l now = stepGeneral ex (getEx m ex) l now := by
    rcases hex with h | h | h <;> subst h <;> rfl
  refine ⟨?_, ?_, ?_⟩
  · intro hl
    simp only [updateState, hg, stepGeneral_transition _ _ _ _ hl, setEx_getEx]
  · intro h1 h2 h3
    simp only [updateState, hg, stepGeneral_drop ex (getEx m ex) l now h1 h2 h3,
      setEx_getEx]
  · intro h1 h2 h3
    simp only [updateState, hg, stepGeneral_accept ex (getEx m ex) l now h1 h2 h3]

/-- C1 witness: an accepted OPEN-to-CLOSED transition on a fresh manager. -/
theorem C1_debounced_update_witness :
    ¬ isTransitionLabel "CLOSED" ∧ ("CLOSED" : String) ≠ "OPEN" ∧
    MIN_STATE_DURATION ≤ (1 : ℚ) - 0 ∧
    updateState (initManager 0) .open_close "CLOSED" 1 =
      (setEx (initManager 0) .open_close ⟨"CLOSED", "OPEN", 0, 1, none, none⟩,
        true, 0) := by
  refine ⟨by decide, by decide, by norm_num [MIN_STATE_DURATION], ?_⟩
  have h := (C1_debounced_update .open_close (Or.inl rfl) (initManager 0)
    "CLOSED" 1).2.2 (by decide) (by decide)
    (by norm_num [MIN_STATE_DURATION, getEx, initManager])
  rw [h]
  norm_num +decide [getEx, initManager, repEdge]

/-- C2 (amended): for thumb_opposition, a label starting with TOUCH_ is
accepted iff the string obtained by deleting every occurrence of the
substring TOUCH_ equals the finger at the sequence cursor and is_touching
is false; on acceptance is_touching is set, the cursor advances modulo 4,
and the count increments exactly on wrap-around to 0.  RELEASE or
TRANSITION is accepted iff is_touching is true, clearing it.  Every other
label is rejected with no state change.  The eight-label touch/release
sequence from the initial state yields exactly one repetition. -/
theorem C2_thumb_update (m : StateManager) (l : String) (now : ℚ)
    (h4 : (getEx m .thumb_opposition).sequence_index.getD 0 < 4) :
    (strStartsWith l "TOUCH_" = true →
      strReplace l "TOUCH_" "" =
          seqTuple.getD ((getEx m .thumb_opposition).sequence_index.getD 0) "" →
      (getEx m .thumb_opposition).is_touching.getD false = false →
      updateState m .thumb_opposition l now =
        (setEx m .thumb_opposition
          { getEx m .thumb_opposition with
              is_touching := some true
              sequence_index :=
                some (((getEx m .thumb_opposition).sequence_index.getD 0 + 1) % 4)
              repetitions :=
                if ((getEx m .thumb_opposition).sequence_index.getD 0 + 1) % 4 = 0
                then (getEx m .thumb_opposition).repetitions + 1
                else (getEx m .thumb_opposition).repetitions
              previous_state := (getEx m .thumb_opposition).current_state
              current_state := l
              last_state_change := now }, true,
          if ((getEx m .thumb_opposition).sequence_index.getD 0 + 1) % 4 = 0
          then (getEx m .thumb_opposition).repetitions + 1
          else (getEx m .thumb_opposition).repetitions)) ∧
    (strStartsWith l "TOUCH_" = true →
      ¬ (strReplace l "TOUCH_" "" =
            seqTuple.getD ((getEx m .thumb_opposition).sequence_index.getD 0) "" ∧
          (getEx m .thumb_opposition).is_touching.getD false = false) →
      updateState m .thumb_opposition l now =
        (m, false, (getEx m .thumb_opposition).repetitions)) ∧
    (strStartsWith l "TOUCH_" = false → (l = "RELEASE" ∨ l = "TRANSITION") →
      ((getEx m .thumb_opposition).is_touching.getD false = true →
        updateState m .thumb_opposition l now =
          (setEx m .thumb_opposition
            { getEx m .thumb_opposition with
                is_touching := some false
                previous_state := (getEx m .thumb_opposition).current_state
                current_state := l
                last_state_change := now }, true,
            (getEx m .thumb_opposition).repetitions)) ∧
      ((getEx m .thumb_opposition).is_touching.getD false = false →
        updateState m .thumb_opposition l now =
          (m, false, (getEx m .thumb_opposition).repetitions))) ∧
    (strStartsWith l "TOUCH_" = false → ¬ (l = "RELEASE" ∨ l = "TRANSITION") →
      updateState m .thumb_opposition l now =
        (m, false, (getEx m .thumb_opposition).repetitions)) ∧
    (getEx (foldUpdates (initManager 0)
        [(.thumb_opposition, "TOUCH_INDEX", 0), (.thumb_opposition, "RELEASE", 0),
         (.thumb_opposition, "TOUCH_MIDDLE", 0), (.thumb_opposition, "RELEASE", 0),
         (.thumb_opposition, "TOUCH_RING", 0), (.thumb_opposition, "RELEASE", 0),
         (.thumb_opposition, "TOUCH_PINKY", 0), (.thumb_opposition, "RELEASE", 0)])
      .thumb_opposition).repetitions = 1 := by
  refine ⟨?_, ?_, ?_, ?_, by decide⟩
  · intro h1 hf ht
    simp only [updateState, stepEx,
      stepThumb_touch_accept (getEx m .thumb_opposition) l now h1 hf ht]
  · intro h1 hrej
    simp only [updateState, stepEx,
      stepThumb_touch_reject (getEx m .thumb_opposition) l now h1 hrej,
      setEx_getEx]
  · intro h1 h2
    constructor
    · intro ht
      simp only [updateState, stepEx,
        stepThumb_release (getEx m .thumb_opposition) l now h1 h2, if_pos ht]
    · intro ht
      have hne : ¬ ((getEx m .thumb_opposition).is_touching.getD false = true) := by
        rw [ht]
        exact Bool.false_ne_true
      simp only [updateState, stepEx,
        stepThumb_release (getEx m .thumb_opposition) l now h1 h2,
        if_neg hne, setEx_getEx]
  · intro h1 h2
    simp only [updateState, stepEx,
      stepThumb_other (getEx m .thumb_opposition) l now h1 h2, setEx_getEx]

/-- C2 counterexample: the label TOUCH_TOUCH_INDEX is TOUCH_<finger> for
the finger string TOUCH_INDEX, which is not one of INDEX, MIDDLE, RING,
PINKY and differs from the cursor finger INDEX, so the claim requires it to
be rejected; the code deletes every occurrence of TOUCH_ and accepts it as
a touch of INDEX, advancing the cursor. -/
theorem C2_thumb_update_cex :
    ("TOUCH_TOUCH_INDEX" : String) = "TOUCH_" ++ "TOUCH_INDEX" ∧
    ("TOUCH_INDEX" : String) ∉ seqTuple ∧
    (getEx (initManager 0) .thumb_opposition).sequence_index.getD 0 = 0 ∧
    seqTuple.getD 0 "" = "INDEX" ∧
    (getEx (initManager 0) .thumb_opposition).is_touching.getD false = false ∧
    (updateState (initManager 0) .thumb_opposition "TOUCH_TOUCH_INDEX" 0).2.1
      = true ∧
    (getEx (updateState (initManager 0) .thumb_opposition "TOUCH_TOUCH_INDEX" 0).1
        .thumb_opposition).sequence_index = some 1 := by
  decide

/-- C2 witness: the first TOUCH_INDEX on a fresh manager is accepted. -/
theorem C2_thumb_update_witness :
    ((getEx (initManager 0) .thumb_opposition).sequence_index.getD 0 < 4) ∧
    strStartsWith "TOUCH_INDEX" "TOUCH_" = true ∧
    strReplace "TOUCH_INDEX" "TOUCH_" "" = "INDEX" ∧
    updateState (initManager 0) .thumb_opposition "TOUCH_INDEX" 0 =
      (setEx (initManager 0) .thumb_opposition
        ⟨"TOUCH_INDEX", "TRACKING", 0, 0, some 1, some true⟩, true, 0) := by
  refine ⟨by decide, by decide, by decide, ?_⟩
  have h := (C2_thumb_update (initManager 0) "TOUCH_INDEX" 0 (by decide)).1
    (by decide) (by decide) (by decide)
  rw [h]
  norm_num +decide [getEx, initManager]

/-- C3: for finger_lifts there is no time debounce; TRANSITION and
TRANSITIONING labels are ignored; a differring label is committed at once
and the count increments exactly when the old label ends in _UP and the
new label is NONE (the check runs against the old label, before the
commit); resubmitting the current label changes nothing.  INDEX_UP then
NONE yields one repetition, and INDEX_UP, MIDDLE_UP, NONE also yields
exactly one. -/
theorem C3_finger_lifts_update (m : StateManager) (l : String) (now : ℚ) :
    (isTransitionLabel l →
      updateState m .finger_lifts l now =
        (m, false, (getEx m .finger_lifts).repetitions)) ∧
    (¬ isTransitionLabel l → l ≠ (getEx m .finger_lifts).current_state →
      updateState m .finger_lifts l now =
        (setEx m .finger_lifts
          { getEx m .finger_lifts with
              repetitions := (getEx m .finger_lifts).repetitions +
                (if strEndsWith (getEx m .finger_lifts).current_state "_UP" = true
                    ∧ l = "NONE" then 1 else 0)
              previous_state := (getEx m .finger_lifts).current_state
              current_state := l
              last_state_change := now }, true,
          (getEx m .finger_lifts).repetitions +
            (if strEndsWith (getEx m .finger_lifts).current_state "_UP" = true
                ∧ l = "NONE" then 1 else 0))) ∧
    (¬ isTransitionLabel l → l = (getEx m .finger_lifts).current_state →
      updateState m .finger_lifts l now =
        (m, false, (getEx m .finger_lifts).repetitions)) ∧
    (getEx (foldUpdates (initManager 0)
        [(.finger_lifts, "INDEX_UP", 0), (.finger_lifts, "NONE", 1)])
      .finger_lifts).repetitions = 1 ∧
    (getEx (foldUpdates (initManager 0)
        [(.finger_lifts, "INDEX_UP", 0), (.finger_lifts, "MIDDLE_UP", 1),
         (.finger_lifts, "NONE", 2)]) .finger_lifts).repetitions = 1 := by
  refine ⟨?_, ?_, ?_, by decide, by decide⟩
  · intro hl
    simp only [updateState, stepEx, stepFingerLifts_transition _ _ _ hl,
      setEx_getEx]
  · intro h1 h2
    simp only [updateState, stepEx, stepFingerLifts_change _ _ _ h1 h2]
  · intro h1 h2
    subst h2
    simp only [updateState, stepEx, stepFingerLifts_same, setEx_getEx]

/-- C3 witness: the counted _UP-to-NONE edge on a concrete record. -/
theorem C3_finger_lifts_update_witness :
    ¬ isTransitionLabel "NONE" ∧ ("NONE" : String) ≠ "INDEX_UP" ∧
    updateState (setEx (initManager 0) .finger_lifts
        ⟨"INDEX_UP", "NONE", 0, 0, none, none⟩) .finger_lifts "NONE" 1 =
      (setEx (initManager 0) .finger_lifts ⟨"NONE", "INDEX_UP", 1, 1, none, none⟩,
        true, 1) := by
  refine ⟨by decide, by decide, ?_⟩
  have h := (C3_finger_lifts_update (setEx (initManager 0) .finger_lifts
    ⟨"INDEX_UP", "NONE", 0, 0, none, none⟩) "NONE" 1).2.1 (by decide) (by decide)
  rw [h]
  norm_num +decide [getEx, setEx, initManager, strEndsWith]

/-- C4: under any sequence of `update_state` calls the repetition count of
every exercise is monotonically non-decreasing; in particular no call ever
decreases it or returns it to zero from a positive value. -/
theorem C4_count_monotone (m : StateManager)
    (calls : List (ExerciseType × String × ℚ)) (ex : ExerciseType) :
    (getEx m ex).repetitions ≤ (getEx (foldUpdates m calls) ex).repetitions := by
  induction calls generalizing m with
  | nil => exact le_refl _
  | cons c cs ih =>
    exact le_trans (updateState_mono m c.1 c.2.1 c.2.2 ex) (ih _)

/-- C5 (amended): immediately after `reset(exercise_type)` the repetition
count is 0 and the current label is OPEN, for every exercise type. -/
theorem C5_reset_state (m : StateManager) (ex : ExerciseType) (now : ℚ) :
    (getEx (resetManager m ex now) ex).repetitions = 0 ∧
    (getEx (resetManager m ex now) ex).current_state = "OPEN" := by
  rw [resetManager, getEx_setEx]
  exact ⟨rfl, rfl⟩

/-- C5 counterexample: abduction_adduction is initialised with label
CLOSED, but reset puts it to OPEN, not back to its initial label. -/
theorem C5_reset_cex :
    (getEx (initManager 0) .abduction_adduction).current_state = "CLOSED" ∧
    (getEx (resetManager (initManager 0) .abduction_adduction 0)
        .abduction_adduction).current_state = "OPEN" ∧
    ("OPEN" : String) ≠ "CLOSED" := by
  refine ⟨rfl, rfl, by decide⟩


/-- C6 (amended): every classifier returns its designated fallback label on
a frame with fewer than 21 points; open_close and pinch catch the
KeyError raised by a malformed point and so always return a label from
their closed set, and thumb_opposition never inspects the points; but
abduction_adduction and finger_lifts have no exception handler, so a
malformed 21-point frame makes their `detect_state` raise instead of
returning the fallback label (see the counterexample). -/
theorem C6_classifier_robustness :
    (∀ f : List RawPt, f.length < 21 →
      ocDetectState f = "TRANSITION" ∧ pinchDetectState f = "TRANSITION" ∧
      aaDetectState f = .ok "UNKNOWN" ∧ flDetectState f = .ok "UNKNOWN" ∧
      toDetectState f = "UNKNOWN") ∧
    (∀ f : List RawPt,
      ocDetectState f = "OPEN" ∨ ocDetectState f = "CLOSED" ∨
        ocDetectState f = "TRANSITION") ∧
    (∀ f : List RawPt,
      pinchDetectState f = "OPEN" ∨ pinchDetectState f = "CLOSED" ∨
        pinchDetectState f = "TRANSITION") ∧
    (∀ f : List RawPt,
      toDetectState f = "UNKNOWN" ∨ toDetectState f = "TRACKING") := by
  refine ⟨?_, ?_, ?_, ?_⟩
  · intro f h
    exact ⟨by rw [ocDetectState, if_pos h], by rw [pinchDetectState, if_pos h],
      by rw [aaDetectState, if_pos h], by rw [flDetectState, if_pos h],
      by rw [toDetectState, if_pos h]⟩
  · intro f
    rw [ocDetectState]
    split_ifs with h
    · simp
    · cases hb : ocTryBody f with
      | error e => simp
      | ok s =>
        obtain ⟨a, ha⟩ := ocTryBody_classify f s hb
        rw [ha]
        exact ocClassify_mem a
  · intro f
    rw [pinchDetectState]
    split_ifs with h
    · simp
    · cases hb : pinchTryBody f with
      | error e => simp
      | ok s =>
        obtain ⟨a, ha⟩ := pinchTryBody_classify f s hb
        rw [ha]
        exact pinchClassify_mem a
  · intro f
    rw [toDetectState]
    split_ifs <;> simp

/-- C6 counterexample: a 21-point frame whose landmark 8 is missing its
coordinate keys makes abduction_adduction and finger_lifts `detect_state`
raise (propagate an error) instead of returning the fallback UNKNOWN. -/
theorem C6_classifier_cex :
    F6.length = 21 ∧
    F6.get? 8 = some ⟨none, none, some 0⟩ ∧
    aaDetectState F6 = .error () ∧
    flDetectState F6 = .error () :=
  ⟨rfl, rfl, rfl, rfl⟩

/-- C6 witness: the empty frame takes every fallback branch. -/
theorem C6_classifier_robustness_witness :
    (([] : List RawPt).length < 21) ∧
    ocDetectState [] = "TRANSITION" ∧ pinchDetectState [] = "TRANSITION" ∧
    aaDetectState [] = .ok "UNKNOWN" ∧ flDetectState [] = .ok "UNKNOWN" ∧
    toDetectState [] = "UNKNOWN" := by
  have h := C6_classifier_robustness.1 [] (by decide)
  exact ⟨by decide, h.1, h.2.1, h.2.2.1, h.2.2.2.1, h.2.2.2.2⟩

/-- C7 (amended): `detect_touch_target` reports a touch iff the
palm-normalized thumb-to-target distance is at most 0.22 and
`detect_released` reports a release iff it is at least 0.28; but the
composed pipeline labels a frame RELEASE exactly when no finger satisfies
the touch threshold — `detect_released` is never consulted — so RELEASE is
also produced while the expected finger's distance lies strictly between
0.22 and 0.28 (see the counterexample). -/
theorem C7_thumb_thresholds :
    (∀ (f : List RawPt) (target : String) (d : ℝ),
      toNormDist f target = .ok d →
        detect_touch_target f target = .ok (decide (d ≤ touch_threshold)) ∧
        detect_released f target = .ok (decide (release_threshold ≤ d))) ∧
    (∀ (f : List RawPt) (cursor : Nat),
      composeThumbLabel f cursor = "RELEASE" ↔
        ∀ fg ∈ seqTuple, probeTouch f fg = false) := by
  constructor
  · intro f target d h
    constructor
    · rw [detect_touch_target, h]
      rfl
    · rw [detect_released, h]
      rfl
  · intro f cursor
    rcases hq : seqTuple.find? (fun fg => probeTouch f fg) with _ | t
    · constructor
      · intro _ fg hfg
        have := List.find?_eq_none.mp hq fg hfg
        simpa using this
      · intro _
        rw [composeThumbLabel, hq]
    · constructor
      · intro h
        exfalso
        rw [composeThumbLabel, hq] at h
        dsimp only at h
        split_ifs at h
        · exact touch_ne_release t h
        · exact absurd h (by decide)
      · intro hall
        exfalso
        have h1 := List.find?_some hq
        have h2 := List.mem_of_find?_eq_some hq
        rw [hall t h2] at h1
        exact absurd h1 (by decide)

/-- C7 counterexample: on the frame F7 the expected finger INDEX sits at
normalized distance 1/4, strictly inside the hysteresis band
(0.22, 0.28), its release predicate is false, and yet the composed label
is RELEASE. -/
theorem C7_thumb_thresholds_cex :
    composeThumbLabel F7 0 = "RELEASE" ∧
    toNormDist F7 "INDEX" = .ok (1 / 4) ∧
    seqTuple.getD 0 "" = "INDEX" ∧
    touch_threshold < 1 / 4 ∧ ((1 : ℝ) / 4) < release_threshold ∧
    detect_released F7 "INDEX" = .ok false := by
  refine ⟨composeThumb_F7, toNormDist_F7_index, rfl, ?_, ?_, ?_⟩
  · rw [touch_threshold]
    norm_num
  · rw [release_threshold]
    norm_num
  · rw [detect_released, toNormDist_F7_index]
    show Except.ok (decide (release_threshold ≤ 1 / 4)) = Except.ok false
    rw [decide_eq_false]
    rw [release_threshold]
    norm_num

/-- C7 witness: the threshold characterisation and the RELEASE
characterisation, both instantiated on the frame F7. -/
theorem C7_thumb_thresholds_witness :
    toNormDist F7 "INDEX" = .ok (1 / 4) ∧
    detect_touch_target F7 "INDEX" = .ok (decide ((1 : ℝ) / 4 ≤ touch_threshold)) ∧
    (composeThumbLabel F7 0 = "RELEASE" ↔
      ∀ fg ∈ seqTuple, probeTouch F7 fg = false) ∧
    composeThumbLabel F7 0 = "RELEASE" := by
  refine ⟨toNormDist_F7_index,
    (C7_thumb_thresholds.1 F7 "INDEX" (1 / 4) toNormDist_F7_index).1,
    C7_thumb_thresholds.2 F7 0, ?_⟩
  exact (C7_thumb_thresholds.2 F7 0).mpr probeTouch_F7

/-- C8 (amended): `_palm_size` returns 1.0 on a frame with fewer than 10
points and otherwise the wrist-to-middle-MCP distance floored at 1e-6;
every value it returns is at least 1e-6 — but not strictly greater: on
coincident landmarks it returns exactly 1e-6 (see the counterexample). -/
theorem C8_palm_size :
    (∀ f : List RawPt, f.length < 10 → palmSizeE f = .ok 1) ∧
    (∀ (f : List RawPt) (v : ℝ), palmSizeE f = .ok v → 1 / 1000000 ≤ v) ∧
    (∀ (f : List RawPt) (a b : RawPt) (d : ℝ), 10 ≤ f.length →
      getLm f 0 = .ok a → getLm f 9 = .ok b → dist2E a b = .ok d →
      palmSizeE f = .ok (max d (1 / 1000000))) := by
  refine ⟨?_, ?_, ?_⟩
  · intro f h
    rw [palmSizeE, if_pos h]
  · intro f v h
    rw [palmSizeE] at h
    split_ifs at h with hlen
    · simp only [Except.ok.injEq] at h
      rw [← h]
      norm_num
    · cases h0 : getLm f 0 with
      | error e => rw [h0] at h; simp at h
      | ok a =>
        rw [h0, ok_bind] at h
        cases h9 : getLm f 9 with
        | error e => rw [h9] at h; simp at h
        | ok b =>
          rw [h9, ok_bind] at h
          cases hd : dist2E a b with
          | error e => rw [hd] at h; simp at h
          | ok d =>
            rw [hd] at h
            have hv : Except.ok (max d (1 / 1000000)) = Except.ok v := h
            rw [← Except.ok.inj hv]
            exact le_max_right d _
  · intro f a b d hlen h0 h9 hd
    rw [palmSizeE, if_neg (not_lt.mpr hlen), h0, ok_bind, h9, ok_bind, hd]
    rfl

/-- C8 counterexample: ten coincident landmarks give a palm size of
exactly 1e-6, which is not strictly greater than 1e-6. -/
theorem C8_palm_size_cex :
    F10 = List.replicate 10 (P2 0 0) ∧
    F10.length = 10 ∧
    palmSizeE F10 = .ok (1 / 1000000) ∧
    ¬ ((1 : ℝ) / 1000000 < 1 / 1000000) :=
  ⟨rfl, rfl, palmSize_F10, lt_irrefl _⟩

/-- C8 witness: the short-frame branch on the empty frame and the floor
bound on the degenerate frame F10. -/
theorem C8_palm_size_witness :
    (([] : List RawPt).length < 10) ∧ palmSizeE ([] : List RawPt) = .ok 1 ∧
    ((1 : ℝ) / 1000000 ≤ 1 / 1000000) :=
  ⟨by decide, C8_palm_size.1 [] (by decide),
    C8_palm_size.2.1 F10 (1 / 1000000) palmSize_F10⟩

/-- C9: on any reachable manager, submitting the exercise's current label
twice in a row never increments the repetition count and the second call
reports changed = false. -/
theorem C9_same_label_idempotent (m : StateManager) (hm : Reachable m)
    (ex : ExerciseType) (now1 now2 : ℚ) :
    (updateState (updateState m ex (getEx m ex).current_state now1).1 ex
        (getEx m ex).current_state now2).2.1 = false ∧
    (updateState (updateState m ex (getEx m ex).current_state now1).1 ex
        (getEx m ex).current_state now2).2.2 = (getEx m ex).repetitions ∧
    (getEx (updateState (updateState m ex (getEx m ex).current_state now1).1 ex
        (getEx m ex).current_state now2).1 ex).repetitions
      = (getEx m ex).repetitions := by
  have hinv : ex = .thumb_opposition → ThumbInv (getEx m ex) := by
    rintro rfl
    exact reachable_thumbInv m hm
  have h1 : (updateState m ex (getEx m ex).current_state now1).1 = m := by
    show setEx m ex (stepEx ex (getEx m ex) (getEx m ex).current_state now1).1 = m
    rw [stepEx_same ex (getEx m ex) now1 hinv, setEx_getEx]
  rw [h1]
  have h2 : stepEx ex (getEx m ex) (getEx m ex).current_state now2 =
      (getEx m ex, false, (getEx m ex).repetitions) :=
    stepEx_same ex (getEx m ex) now2 hinv
  refine ⟨?_, ?_, ?_⟩
  · show (stepEx ex (getEx m ex) (getEx m ex).current_state now2).2.1 = false
    rw [h2]
  · show (stepEx ex (getEx m ex) (getEx m ex).current_state now2).2.2 =
      (getEx m ex).repetitions
    rw [h2]
  · show (getEx (setEx m ex
      (stepEx ex (getEx m ex) (getEx m ex).current_state now2).1) ex).repetitions
      = (getEx m ex).repetitions
    rw [h2, setEx_getEx]

/-- C9 witness: resubmitting OPEN twice on a fresh manager. -/
theorem C9_same_label_idempotent_witness :
    (updateState (updateState (initManager 0) .open_close "OPEN" 3).1
        .open_close "OPEN" 5).2.1 = false ∧
    (updateState (updateState (initManager 0) .open_close "OPEN" 3).1
        .open_close "OPEN" 5).2.2 = 0 ∧
    (getEx (updateState (updateState (initManager 0) .open_close "OPEN" 3).1
        .open_close "OPEN" 5).1 .open_close).repetitions = 0 :=
  C9_same_label_idempotent (initManager 0) (Reachable.init 0) .open_close 3 5

/-- C10: whenever `update_state` reports changed = false it has left the
whole manager — in particular the exercise's record with all of its
fields — exactly as it was, and it returns the unchanged count. -/
theorem C10_reject_frame (m : StateManager) (ex : ExerciseType) (l : String)
    (now : ℚ) (h : (updateState m ex l now).2.1 = false) :
    (updateState m ex l now).1 = m ∧
      (updateState m ex l now).2.2 = (getEx m ex).repetitions := by
  have h' : (stepEx ex (getEx m ex) l now).2.1 = false := h
  obtain ⟨ha, hb⟩ := stepEx_reject ex (getEx m ex) l now h'
  constructor
  · show setEx m ex (stepEx ex (getEx m ex) l now).1 = m
    rw [ha, setEx_getEx]
  · exact hb

/-- C10 witness: a dropped frame (same label) leaves the manager intact. -/
theorem C10_reject_frame_witness :
    (updateState (initManager 0) .open_close "OPEN" 7).2.1 = false ∧
    (updateState (initManager 0) .open_close "OPEN" 7).1 = initManager 0 := by
  have hf : (updateState (initManager 0) .open_close "OPEN" 7).2.1 = false := by
    decide
  exact ⟨hf, (C10_reject_frame (initManager 0) .open_close "OPEN" 7 hf).1⟩

end HandAbility
